import Mathlib

/-!
Shallow embedding of the SenseVoice local inference-runtime orchestrator of the
VTT-keyboard repository (`src-tauri/src/sensevoice/manager.rs`,
`src-tauri/src/sensevoice/worker.rs`, `src-tauri/src/settings.rs`), together
with theorems settling specification claims about it.

External effects (the container CLI, HTTP transport, the settings store, the
filesystem) are embedded as explicit inputs and as lists of issued actions;
all pure computation (string normalization, JSON field logic, state updates,
branch decisions) is translated directly from the source.
-/

namespace VTT

/-- JSON values as produced by `serde_json` parsing.  Numbers are modelled as
integers, which covers every numeric field of the orchestrator protocol
(`percent : u8`, `ts : i64`); the claims under study never branch on
non-integer numbers. -/
inductive Json where
  | null : Json
  | bool (b : Bool) : Json
  | num (n : Int) : Json
  | str (s : String) : Json
  | arr (elems : List Json) : Json
  | obj (fields : List (String × Json)) : Json

/-- `serde_json::Value::get(key)` on an object (field lookup; `None` on any
non-object). -/
def Json.get : Json → String → Option Json
  | .obj fields, key => fields.lookup key
  | _, _ => none

/-- `Value::as_bool`. -/
def Json.asBool : Json → Option Bool
  | .bool b => some b
  | _ => none

/-- `Value::as_array`. -/
def Json.asArray : Json → Option (List Json)
  | .arr elems => some elems
  | _ => none

/-- `Value::as_str`. -/
def Json.asStr : Json → Option String
  | .str s => some s
  | _ => none

/-- An integer JSON number (the shape `serde` demands for an `i64` field). -/
def Json.asInt : Json → Option Int
  | .num n => some n
  | _ => none

/-- `SenseVoiceError` (`sensevoice/mod.rs`). -/
inductive SenseVoiceError where
  | config (msg : String)
  | request (msg : String)
  | parse (msg : String)
  | process (msg : String)
  | io (msg : String)
  | url (msg : String)
  | settings (msg : String)
  deriving DecidableEq, Repr

/-- The `thiserror` `Display` rendering of `SenseVoiceError`
(`#[error("SenseVoice 配置错误: {0}")]` and its siblings), i.e. what
`err.to_string()` produces in `manager.rs`. -/
def SenseVoiceError.toMessage : SenseVoiceError → String
  | .config msg => "SenseVoice 配置错误: " ++ msg
  | .request msg => "SenseVoice 请求失败: " ++ msg
  | .parse msg => "SenseVoice 响应解析失败: " ++ msg
  | .process msg => "SenseVoice 进程执行失败: " ++ msg
  | .io msg => "SenseVoice 文件读写失败: " ++ msg
  | .url msg => "SenseVoice URL 错误: " ++ msg
  | .settings msg => "SenseVoice 设置读写失败: " ++ msg

/- Constants of `manager.rs`. -/

def SENSEVOICE_IMAGE_TAG : String := "vtt-sensevoice:local"
def VLLM_IMAGE_TAG : String := "vllm/vllm-openai:nightly"
def SERVICE_CONTAINER_NAME : String := "vtt-sensevoice-service"
def VLLM_CONTAINER_NAME : String := "vtt-sensevoice-service"
def LOCAL_MODEL_SENSEVOICE : String := "sensevoice"
def LOCAL_MODEL_VOXTRAL : String := "voxtral"
def LOCAL_MODEL_QWEN3_ASR : String := "qwen3-asr"
def DEFAULT_VOXTRAL_MODEL_ID : String := "mistralai/Voxtral-Mini-4B-Realtime-2602"
def DEFAULT_QWEN3_ASR_MODEL_ID : String := "Qwen/Qwen3-ASR-1.7B"

def QWEN3_ASR_ALLOWED_MODEL_IDS : List String :=
  ["Qwen/Qwen3-ASR-1.7B", "Qwen/Qwen3-ASR-0.6B", "Qwen/Qwen3-ForcedAligner-0.6B"]

def HEALTH_MONITOR_WARN_SECS : Nat := 120
def HEALTH_MONITOR_INTERVAL_MILLIS : Nat := 1000
def START_CANCELLED_MARKER : String := "__sensevoice_start_cancelled__"

/-- The placeholder string `collect_runtime_tail` returns when no log line is
available (`（无日志）`). -/
def NO_LOG_TAIL : String := "（无日志）"

/- ## Readiness predicate (claim C4) -/

/-- One observed blocking HTTP response: the success bit of the status code
and the `serde_json` parse of the body text (`none` when the body text is not
valid JSON). -/
structure HttpReply where
  ok : Bool
  body : Option Json

/-- `parse_health_ready_field` (manager.rs): `serde_json::from_str(body).ok()
.and_then(|json| json.get("ready").and_then(|v| v.as_bool()))`.  The text
parse is abstracted: the function receives the parse result. -/
def parse_health_ready_field (body : Option Json) : Option Bool :=
  body.bind fun json => (json.get "ready").bind Json.asBool

/-- `parse_vllm_models_response_ready` (manager.rs): the parsed models-listing
body has a `data` array that is non-empty. -/
def parse_vllm_models_response_ready (body : Option Json) : Bool :=
  match body with
  | none => false
  | some json =>
    match (json.get "data").bind Json.asArray with
    | some models => !models.isEmpty
    | none => false

/-- `check_vllm_models_ready` (manager.rs): GET `/v1/models`; `false` on
transport error or non-success status, else
`parse_vllm_models_response_ready` of the body. -/
def check_vllm_models_ready (modelsReply : Option HttpReply) : Bool :=
  match modelsReply with
  | none => false
  | some reply => if reply.ok then parse_vllm_models_response_ready reply.body else false

/-- `is_service_ready` (manager.rs lines 946-957). -/
def is_service_ready (healthBody : Option Json) (isVllmModel : Bool)
    (modelsReply : Option HttpReply) : Bool :=
  match parse_health_ready_field healthBody with
  | some ready => ready
  | none => if isVllmModel then check_vllm_models_ready modelsReply else false

/- ## Publish-host normalization (claim C9) -/

/-- ASCII lowercasing of one character, as Rust's `eq_ignore_ascii_case`
compares. -/
def asciiLowercase (c : Char) : Char :=
  if 'A' ≤ c ∧ c ≤ 'Z' then Char.ofNat (c.toNat + 32) else c

/-- Rust `str::eq_ignore_ascii_case`. -/
def eq_ignore_ascii_case (a b : String) : Bool :=
  a.data.map asciiLowercase == b.data.map asciiLowercase

/-- Rust `str::split('.')` on a character list: `n` separators give `n + 1`
groups, empty groups kept. -/
def splitOnDot : List Char → List (List Char)
  | [] => [[]]
  | c :: rest =>
    if c = '.' then [] :: splitOnDot rest
    else
      match splitOnDot rest with
      | group :: groups => (c :: group) :: groups
      | [] => [[c]]

/-- Rust `str::trim`: strip whitespace from both ends. -/
def rust_trim (s : String) : String :=
  ⟨(((s.data.dropWhile Char.isWhitespace).reverse).dropWhile Char.isWhitespace).reverse⟩

/-- Validity of one dot-separated group for Rust's `Ipv4Addr` parser: a
non-empty run of ASCII digits, no leading zero (except the single digit
`0`), value at most 255. -/
def ipv4_octet_valid (cs : List Char) : Bool :=
  !cs.isEmpty && cs.all (fun c => c.isDigit) &&
    (cs.length == 1 || cs.head? != some '0') &&
    decide (cs.foldl (fun acc c => acc * 10 + (c.toNat - 48)) 0 ≤ 255)

/-- Rust `host.parse::<Ipv4Addr>().is_ok()`: exactly four valid octets
separated by `.`. -/
def parses_as_ipv4 (host : String) : Bool :=
  let parts := splitOnDot host.data
  parts.length == 4 && parts.all ipv4_octet_valid

/-- `normalize_publish_host` (manager.rs lines 1808-1818; the worker has a
byte-identical copy at worker.rs lines 592-600). -/
def normalize_publish_host (host : String) : Except SenseVoiceError String :=
  if eq_ignore_ascii_case host "localhost" then Except.ok "127.0.0.1"
  else if parses_as_ipv4 host then Except.ok host
  else Except.error (SenseVoiceError.config "Docker 模式下服务地址主机仅支持 localhost 或 IPv4 地址")

/- ## vLLM model-id resolution (claim C10) -/

/-- `normalize_qwen3_asr_model_id` (manager.rs): the trimmed configured id if
it is one of the allowed Qwen3 ids, else the default. -/
def normalize_qwen3_asr_model_id (model_id : String) : String :=
  let trimmed := rust_trim model_id
  (QWEN3_ASR_ALLOWED_MODEL_IDS.find? (fun candidate => candidate == trimmed)).getD
    DEFAULT_QWEN3_ASR_MODEL_ID

/-- `resolve_vllm_model_id` (manager.rs lines 1293-1299). -/
def resolve_vllm_model_id (local_model model_id : String) : String :=
  if local_model == LOCAL_MODEL_VOXTRAL then DEFAULT_VOXTRAL_MODEL_ID
  else if local_model == LOCAL_MODEL_QWEN3_ASR then normalize_qwen3_asr_model_id model_id
  else DEFAULT_QWEN3_ASR_MODEL_ID

/- ## Persisted settings and manager bookkeeping (claims C1, C2, C3) -/

/-- `SenseVoiceSettings` (settings.rs lines 215-223).  The `local_model`
variant selector is read by manager.rs and lib.rs; its declaration is not in
the available copy of settings.rs, so it is included as the spec's data model
describes it (a string selecting the local-model variant). -/
structure SenseVoiceSettings where
  enabled : Bool
  installed : Bool
  service_url : String
  model_id : String
  device : String
  download_state : String
  last_error : String
  local_model : String
  deriving DecidableEq, Repr

/-- `update_state_in_store` (manager.rs lines 1048-1069) as the pure
load-modify-save it performs on the persisted SenseVoice settings. -/
def update_state_in_store (s : SenseVoiceSettings) (download_state last_error : String)
    (installed enabled : Option Bool) : SenseVoiceSettings :=
  { s with
    download_state := download_state
    last_error := last_error
    installed := installed.getD s.installed
    enabled := enabled.getD s.enabled }

/-- In-memory orchestration bookkeeping of `SenseVoiceManager` (manager.rs
lines 132-140).  The `Child` process handles (`log_child`, `prepare_child`)
are modelled by liveness booleans; the two `Arc<AtomicBool>` flags by plain
booleans. -/
structure ManagerState where
  container_name : Option String
  log_child : Bool
  prepare_child : Bool
  start_in_progress : Bool
  start_cancel_flag : Bool
  container_running_cache : Bool
  deriving DecidableEq, Repr

/-- External side effects the manager issues (kill a child process, stop or
force-remove a container by name). -/
inductive RuntimeAction where
  | stopContainer (name : String)
  | removeContainer (name : String)
  | killPrepareWorker
  | killLogStream
  deriving DecidableEq, Repr

/-- `stop_all_runtime_containers` (manager.rs lines 1440-1447): stop and
`rm -f` the service container, and the vLLM container too when its name
differs (it does not — both constants are `vtt-sensevoice-service`). -/
def stop_all_runtime_containers : List RuntimeAction :=
  [RuntimeAction.stopContainer SERVICE_CONTAINER_NAME,
   RuntimeAction.removeContainer SERVICE_CONTAINER_NAME] ++
  (if VLLM_CONTAINER_NAME ≠ SERVICE_CONTAINER_NAME then
    [RuntimeAction.stopContainer VLLM_CONTAINER_NAME,
     RuntimeAction.removeContainer VLLM_CONTAINER_NAME]
   else [])

/-- The payload of a `sensevoice-progress` event (`SenseVoiceProgress`,
manager.rs lines 75-84). -/
structure ProgressPayload where
  stage : String
  message : String
  percent : Option Nat
  detail : Option String
  deriving DecidableEq, Repr

/-- `is_start_cancelled_error` (manager.rs lines 935-937). -/
def is_start_cancelled_error : SenseVoiceError → Bool
  | .process message => message == START_CANCELLED_MARKER
  | _ => false

/-- Rust `str::contains` (substring containment). -/
def containsSubstr (haystack needle : String) : Bool :=
  decide (needle.data <:+: haystack.data)

/-- Combined result of handling a startup failure: the settings persisted,
the progress events emitted, and the cleanup actions issued. -/
structure FailureHandling where
  settings : SenseVoiceSettings
  progressEvents : List ProgressPayload
  actions : List RuntimeAction

/-- The error message `handle_startup_failure` composes for a non-cancelled
failure: the rendered error, with the diagnostic tail appended unless the
message already carries one (`最近日志:`) or no tail is available. -/
def startup_failure_message (err : SenseVoiceError) (runtimeTail : Option String) : String :=
  if containsSubstr err.toMessage "最近日志:" then err.toMessage
  else
    match runtimeTail with
    | some tailText =>
      if tailText != NO_LOG_TAIL then err.toMessage ++ "。最近日志: " ++ tailText
      else err.toMessage
    | none => err.toMessage

/-- `handle_startup_failure` (manager.rs lines 877-912).  `runtimeTail` is
the diagnostic tail `collect_runtime_tail_with_retry` would return, when the
startup attempt had already installed a tail buffer and log path (`none`
models the `(runtime_tail, log_path)` pair not being fully available).
`cleanup_runtime_state` (stop the log stream, clear the container name) plus
`stop_all_runtime_containers` run in both branches. -/
def handle_startup_failure (err : SenseVoiceError) (cancelled : Bool)
    (runtimeTail : Option String) (s : SenseVoiceSettings) : FailureHandling :=
  if cancelled then
    { settings := update_state_in_store s "idle" "" none none
      progressEvents := []
      actions := RuntimeAction.killLogStream :: stop_all_runtime_containers }
  else
    { settings := update_state_in_store s "error"
        (startup_failure_message err runtimeTail) none none
      progressEvents := [{ stage := "error", message := "SenseVoice startup failed",
                           percent := none,
                           detail := some (startup_failure_message err runtimeTail) }]
      actions := RuntimeAction.killLogStream :: stop_all_runtime_containers }

/-- Result of `stop_service`: the new bookkeeping, the persisted settings,
the events emitted and the actions issued. -/
structure StopResult where
  manager : ManagerState
  settings : SenseVoiceSettings
  events : List ProgressPayload
  actions : List RuntimeAction

/-- `stop_service` (manager.rs lines 255-271): kill the prepare worker, set
the cancel flag, clear `start_in_progress` and the running cache, kill the
log stream, stop and remove the runtime containers, clear `container_name`,
persist `idle` with empty error, emit a `stopped` progress event. -/
def stop_service (m : ManagerState) (s : SenseVoiceSettings) : StopResult :=
  let workerActions := if m.prepare_child then [RuntimeAction.killPrepareWorker] else []
  let logActions := if m.log_child then [RuntimeAction.killLogStream] else []
  { manager :=
      { container_name := none
        log_child := false
        prepare_child := false
        start_in_progress := false
        start_cancel_flag := true
        container_running_cache := false }
    settings := update_state_in_store s "idle" "" none none
    events := [{ stage := "stopped", message := "SenseVoice service stopped",
                 percent := none, detail := none }]
    actions := workerActions ++ logActions ++ stop_all_runtime_containers }

/-- `SenseVoiceStatus` (manager.rs lines 61-73). -/
structure SenseVoiceStatus where
  installed : Bool
  enabled : Bool
  running : Bool
  local_model : String
  service_url : String
  model_id : String
  device : String
  download_state : String
  last_error : String
  deriving DecidableEq, Repr

/-- `status` (manager.rs lines 154-172): the cached running flag or an
in-flight start counts as running; everything else is read from settings. -/
def status_of (m : ManagerState) (s : SenseVoiceSettings) : SenseVoiceStatus :=
  { installed := s.installed
    enabled := s.enabled
    running := m.container_running_cache || m.start_in_progress
    local_model := s.local_model
    service_url := s.service_url
    model_id := s.model_id
    device := s.device
    download_state := s.download_state
    last_error := s.last_error }

/-- Result of the synchronous part of `start_service_async`: bookkeeping,
settings as persisted after the call, the returned value, and whether a
background startup thread was spawned. -/
structure StartAsyncResult where
  manager : ManagerState
  settings : SenseVoiceSettings
  outcome : Except SenseVoiceError SenseVoiceStatus
  spawnedStartupThread : Bool

/-- `start_service_async` (manager.rs lines 209-253), up to the point where
the background `run_startup_task` thread is handed off.  `m` is the
bookkeeping after `reconcile_prepare_task` (so `prepare_child` reflects
actual worker liveness).  No settings write happens on this path (the
comment in the source: persistence is left to the background task). -/
def start_service_async (m : ManagerState) (s : SenseVoiceSettings) : StartAsyncResult :=
  if m.prepare_child then
    { manager := m, settings := s
      outcome := Except.error (SenseVoiceError.process "下载任务正在后台执行，请稍后再试")
      spawnedStartupThread := false }
  else if m.container_running_cache then
    let m1 := { m with start_in_progress := false, start_cancel_flag := false }
    { manager := m1, settings := s
      outcome := Except.ok (status_of m1 s)
      spawnedStartupThread := false }
  else if m.start_in_progress then
    { manager := m, settings := s
      outcome := Except.ok (status_of m s)
      spawnedStartupThread := false }
  else if !s.installed then
    { manager := m, settings := s
      outcome := Except.error (SenseVoiceError.config "SenseVoice 尚未安装，请先完成下载")
      spawnedStartupThread := false }
  else
    let m1 := { m with start_in_progress := true, start_cancel_flag := false }
    { manager := m1, settings := s
      outcome := Except.ok (status_of m1 s)
      spawnedStartupThread := true }

/- ## Variant resolution and image ensuring (claims C5, C6) -/

/-- `normalize_local_model` (manager.rs lines 94-102): recognizes `voxtral`
and `qwen3-asr` (ASCII-case-insensitively), everything else is the default
`sensevoice` variant. -/
def normalize_local_model (value : String) : String :=
  if eq_ignore_ascii_case value LOCAL_MODEL_VOXTRAL then LOCAL_MODEL_VOXTRAL
  else if eq_ignore_ascii_case value LOCAL_MODEL_QWEN3_ASR then LOCAL_MODEL_QWEN3_ASR
  else LOCAL_MODEL_SENSEVOICE

/-- `is_vllm_local_model` (manager.rs lines 104-106). -/
def is_vllm_local_model (local_model : String) : Bool :=
  local_model == LOCAL_MODEL_VOXTRAL || local_model == LOCAL_MODEL_QWEN3_ASR

/-- `runtime_image_tag` (manager.rs lines 108-114). -/
def runtime_image_tag (local_model : String) : String :=
  if is_vllm_local_model local_model then VLLM_IMAGE_TAG else SENSEVOICE_IMAGE_TAG

/-- `runtime_container_name` (manager.rs lines 116-122). -/
def runtime_container_name (local_model : String) : String :=
  if is_vllm_local_model local_model then VLLM_CONTAINER_NAME else SERVICE_CONTAINER_NAME

/-- One invocation of the external container CLI issued by the
image-ensuring code paths. -/
inductive EngineAction where
  | imageInspect (tag : String)
  | build (tag : String)
  | pull (tag : String)
  deriving DecidableEq, Repr

/-- `runtime_stamp` (manager.rs lines 1229-1236): a hash over exactly the
four bundled recipe files, in this order (`prepare.py`, `server.py`,
`requirements.txt`, `Dockerfile`).  The bundled file contents and Rust's
`DefaultHasher` are external to the orchestrator sources, so the hex-hash
function is a parameter; the code fixes which contents feed it. -/
def runtime_stamp (hashHex : List String → String)
    (prepareScript serverScript requirementsTxt dockerfileTxt : String) : String :=
  hashHex [prepareScript, serverScript, requirementsTxt, dockerfileTxt]

/-- What an image-ensuring step produced: the CLI actions issued, the stamp
file's content afterwards (`""` models a missing file), and the outcome. -/
structure EnsureImageResult where
  actions : List EngineAction
  stampFile : String
  outcome : Except SenseVoiceError Unit

/-- `ensure_runtime_image` (manager.rs lines 1149-1193).  Inputs: the
computed expected stamp, the stamp file's current content (read with
`unwrap_or_default`, so `""` for a missing file), whether
`docker image inspect` succeeds, and the result of the streamed
`docker build` (only consulted when a build runs).  The build is skipped
exactly when the image exists and the trimmed stamp matches; after a
successful build the new stamp is written. -/
def ensure_runtime_image (expectedStamp previousStamp : String) (hasImage : Bool)
    (buildResult : Except SenseVoiceError Unit) : EnsureImageResult :=
  if hasImage && (rust_trim previousStamp == expectedStamp) then
    { actions := [EngineAction.imageInspect SENSEVOICE_IMAGE_TAG]
      stampFile := previousStamp
      outcome := Except.ok () }
  else
    match buildResult with
    | Except.ok () =>
      { actions := [EngineAction.imageInspect SENSEVOICE_IMAGE_TAG,
                    EngineAction.build SENSEVOICE_IMAGE_TAG]
        stampFile := expectedStamp
        outcome := Except.ok () }
    | Except.error e =>
      { actions := [EngineAction.imageInspect SENSEVOICE_IMAGE_TAG,
                    EngineAction.build SENSEVOICE_IMAGE_TAG]
        stampFile := previousStamp
        outcome := Except.error e }

/-- `ensure_vllm_image` (manager.rs lines 1195-1227): inspect the prebuilt
vLLM image, pull it only when absent; never a build. -/
def ensure_vllm_image_actions (hasImage : Bool) : List EngineAction :=
  if hasImage then [EngineAction.imageInspect VLLM_IMAGE_TAG]
  else [EngineAction.imageInspect VLLM_IMAGE_TAG, EngineAction.pull VLLM_IMAGE_TAG]

/-- The image-ensuring step of `run_startup_task` (manager.rs lines
584-588): the default variant goes through `ensure_runtime_image`, the
vLLM-backed variants through `ensure_vllm_image`.  `local_model` is already
normalized at this point. -/
def startup_image_actions (local_model expectedStamp previousStamp : String)
    (hasImage : Bool) (buildResult : Except SenseVoiceError Unit) : List EngineAction :=
  if local_model == LOCAL_MODEL_SENSEVOICE then
    (ensure_runtime_image expectedStamp previousStamp hasImage buildResult).actions
  else ensure_vllm_image_actions hasImage

namespace Worker

/-- `WorkerJob` (worker.rs lines 22-35). -/
structure WorkerJob where
  local_model : String
  service_url : String
  model_id : String
  device : String
  runtime_dir : String
  models_dir : String
  state_file : String
  image_tag : String
  container_name : String
  deriving DecidableEq, Repr

/-- worker.rs `VOXTRAL_IMAGE_TAG` (line 20) — note it differs from the
manager's `VLLM_IMAGE_TAG` (`latest` vs `nightly`). -/
def VOXTRAL_IMAGE_TAG : String := "vllm/vllm-openai:latest"

/-- worker.rs `normalize_local_model` (lines 246-252): unlike the manager's
version it has no `qwen3-asr` arm, so a `qwen3-asr` job is treated as the
default `sensevoice` variant. -/
def normalize_local_model (value : String) : String :=
  if eq_ignore_ascii_case value LOCAL_MODEL_VOXTRAL then LOCAL_MODEL_VOXTRAL
  else LOCAL_MODEL_SENSEVOICE

/-- The image-ensuring phase of `run_prepare_job` (worker.rs lines 93-127):
a voxtral job goes through `ensure_voxtral_image` (inspect the prebuilt tag,
pull only when absent); every other job — including `qwen3-asr`, by
`Worker.normalize_local_model` — goes through the worker's
`ensure_runtime_image` (worker.rs lines 178-211), which runs
`docker build -t job.image_tag` unless the image exists and the persisted
stamp matches the hash of the four recipe files in `job.runtime_dir`
(`stampMatches`). -/
def prepare_image_actions (job : WorkerJob) (hasImage stampMatches : Bool) :
    List EngineAction :=
  if normalize_local_model job.local_model == LOCAL_MODEL_VOXTRAL then
    if hasImage then [EngineAction.imageInspect VOXTRAL_IMAGE_TAG]
    else [EngineAction.imageInspect VOXTRAL_IMAGE_TAG, EngineAction.pull VOXTRAL_IMAGE_TAG]
  else
    if hasImage && stampMatches then [EngineAction.imageInspect job.image_tag]
    else [EngineAction.imageInspect job.image_tag, EngineAction.build job.image_tag]

end Worker

/-- The `WorkerJob` that `prepare_async` (manager.rs lines 174-207) builds
and hands to the spawned worker process: the manager-normalized variant,
the settings fields, the runtime paths, and the image tag / container name
the manager's resolvers pick for that variant. -/
def prepare_job_for (s : SenseVoiceSettings)
    (runtimeDir modelsDir stateFile : String) : Worker.WorkerJob :=
  { local_model := normalize_local_model s.local_model
    service_url := s.service_url
    model_id := s.model_id
    device := s.device
    runtime_dir := runtimeDir
    models_dir := modelsDir
    state_file := stateFile
    image_tag := runtime_image_tag (normalize_local_model s.local_model)
    container_name := runtime_container_name (normalize_local_model s.local_model) }

/-- `SenseVoiceSettings::default()` (settings.rs lines 225-236; `local_model`
defaults to the default variant per the spec's data model). -/
def default_sensevoice_settings : SenseVoiceSettings :=
  { enabled := false
    installed := false
    service_url := "http://127.0.0.1:8765"
    model_id := "iic/SenseVoiceSmall"
    device := "auto"
    download_state := "idle"
    last_error := ""
    local_model := "sensevoice" }

/- ## Worker IPC events (claim C7) -/

/-- `WorkerEvent` (worker.rs lines 41-71).  `percent` is a `u8`. -/
inductive WorkerEvent where
  | progress (stage message : String) (percent : Option (Fin 256)) (detail : Option String)
  | runtimeLog (stream line : String) (ts : Int)
  | state (download_state last_error : String) (installed enabled : Option Bool)
  | done (message : String)
  | error (message : String)
  deriving DecidableEq, Repr

/-- The `serde` encoding of `WorkerEvent` to a JSON value, as fixed by the
derive attributes: internally tagged with `kind`, variant names in
camelCase, field names as declared, optional fields omitted when `None`
(`skip_serializing_if`).  `emit_event` (worker.rs lines 657-662) prints this
value with `serde_json::to_string` as one line; the text layer is serde's
and is abstracted here. -/
def encodeWorkerEvent : WorkerEvent → Json
  | .progress stage message percent detail =>
    Json.obj ([("kind", Json.str "progress"), ("stage", Json.str stage),
               ("message", Json.str message)] ++
      (match percent with
       | some p => [("percent", Json.num (p.val : Int))]
       | none => []) ++
      (match detail with
       | some d => [("detail", Json.str d)]
       | none => []))
  | .runtimeLog stream line ts =>
    Json.obj [("kind", Json.str "runtimeLog"), ("stream", Json.str stream),
              ("line", Json.str line), ("ts", Json.num ts)]
  | .state download_state last_error installed enabled =>
    Json.obj ([("kind", Json.str "state"), ("download_state", Json.str download_state),
               ("last_error", Json.str last_error)] ++
      (match installed with
       | some b => [("installed", Json.bool b)]
       | none => []) ++
      (match enabled with
       | some b => [("enabled", Json.bool b)]
       | none => []))
  | .done message => Json.obj [("kind", Json.str "done"), ("message", Json.str message)]
  | .error message => Json.obj [("kind", Json.str "error"), ("message", Json.str message)]

/-- A required string field. -/
def getStrField (j : Json) (key : String) : Option String :=
  (j.get key).bind Json.asStr

/-- A `u8` JSON number. -/
def decodeU8 (j : Json) : Option (Fin 256) :=
  match j with
  | .num (Int.ofNat v) => if h : v < 256 then some ⟨v, h⟩ else none
  | _ => none

/-- serde decoding of an `Option` field: absent or `null` is `None`, any
other value must decode. -/
def getOptField (decodeVal : Json → Option α) (j : Json) (key : String) :
    Option (Option α) :=
  match j.get key with
  | none => some none
  | some Json.null => some none
  | some v => (decodeVal v).map some

/-- The `serde` decoding of a `WorkerEvent` line already parsed to a JSON
value (`serde_json::from_str::<WorkerEvent>` on the reader side,
manager.rs lines 404-460). -/
def decodeWorkerEvent (j : Json) : Option WorkerEvent :=
  match getStrField j "kind" with
  | some "progress" =>
    match getStrField j "stage", getStrField j "message",
        getOptField decodeU8 j "percent", getOptField Json.asStr j "detail" with
    | some stage, some message, some percent, some detail =>
      some (.progress stage message percent detail)
    | _, _, _, _ => none
  | some "runtimeLog" =>
    match getStrField j "stream", getStrField j "line", (j.get "ts").bind Json.asInt with
    | some stream, some line, some ts => some (.runtimeLog stream line ts)
    | _, _, _ => none
  | some "state" =>
    match getStrField j "download_state", getStrField j "last_error",
        getOptField Json.asBool j "installed", getOptField Json.asBool j "enabled" with
    | some ds, some le, some installed, some enabled =>
      some (.state ds le installed enabled)
    | _, _, _, _ => none
  | some "done" =>
    match getStrField j "message" with
    | some message => some (.done message)
    | none => none
  | some "error" =>
    match getStrField j "message" with
    | some message => some (.error message)
    | none => none
  | _ => none

/- ## Health monitor (claim C8) -/

/-- What one iteration of the health-monitor loop observes from the outside
world: the cancellation flag, the `docker inspect` result (`none` models the
`Err` case, with `inspectError` its rendered message), the `/health` and
`/v1/models` HTTP results, the diagnostic tail available on failure, and
`now`, the elapsed milliseconds since the monitor started (the `Instant`
clock). -/
structure MonitorObs where
  cancelFlag : Bool
  containerRunning : Option Bool
  healthReply : Option HttpReply
  modelsReply : Option HttpReply
  inspectError : String
  tail : String
  now : Int

def defaultMonitorObs : MonitorObs :=
  { cancelFlag := true, containerRunning := none, healthReply := none,
    modelsReply := none, inspectError := "", tail := "", now := 0 }

/-- The monitor loop's mutable locals (`warned`, `last_warmup_emit`;
manager.rs lines 713-716).  `last_warmup_emit` starts five seconds in the
past (`Instant::now().checked_sub(5s)`), i.e. at `-5000` on the elapsed
clock. -/
structure MonitorState where
  warned : Bool
  lastWarmupEmit : Int
  deriving DecidableEq, Repr

def initMonitorState : MonitorState := { warned := false, lastWarmupEmit := -5000 }

/-- The `stopped` progress event on observed cancellation (manager.rs
line 722). -/
def stoppedProgress : ProgressPayload :=
  { stage := "stopped", message := "SenseVoice service stopped",
    percent := none, detail := none }

/-- The `done` progress event on readiness (manager.rs lines 761-767). -/
def readyProgress : ProgressPayload :=
  { stage := "done", message := "SenseVoice service ready",
    percent := some 100, detail := none }

/-- The throttled warming-up progress event (manager.rs lines 770-779). -/
def warmupProgress : ProgressPayload :=
  { stage := "warmup", message := "SenseVoice model warming up",
    percent := some 92, detail := none }

/-- The one-time "taking longer than expected" event (manager.rs lines
783-792). -/
def warmupSlowProgress : ProgressPayload :=
  { stage := "warmup", message := "SenseVoice model warmup is taking longer than expected",
    percent := some 92, detail := some "Service is available, model is still warming up" }

/-- The `error` event `report_monitor_failure` emits (manager.rs lines
856-875). -/
def monitorFailureProgress (fullMessage : String) : ProgressPayload :=
  { stage := "error", message := "SenseVoice health monitor failed",
    percent := none, detail := some fullMessage }

/-- Whether this iteration's health poll observes readiness: a successful
`/health` status and `is_service_ready` on its body (manager.rs lines
755-759). -/
def obs_ready (isVllmModel : Bool) (o : MonitorObs) : Bool :=
  match o.healthReply with
  | some reply => reply.ok && is_service_ready reply.body isVllmModel o.modelsReply
  | none => false

/-- What one monitor iteration produced: emitted progress events, the
settings write (download_state, last_error) if any, cleanup actions issued,
the value stored into the running cache, and the next loop state (`none`
when the monitor thread returns). -/
structure MonitorStepResult where
  events : List ProgressPayload
  storeWrite : Option (String × String)
  actions : List RuntimeAction
  runningCacheWrite : Option Bool
  next : Option MonitorState

/-- Whether this iteration emits the throttled warming-up event: successful
`/health` status, not ready, and at least three seconds since the last
warming-up emit (manager.rs line 770). -/
def monitor_warmup_emit (st : MonitorState) (o : MonitorObs) : Bool :=
  match o.healthReply with
  | some reply => reply.ok && decide (o.now - st.lastWarmupEmit ≥ 3000)
  | none => false

/-- The loop locals after the warming-up throttle update (manager.rs line
778). -/
def monitor_state_after_warmup (st : MonitorState) (o : MonitorObs) : MonitorState :=
  if monitor_warmup_emit st o then { st with lastWarmupEmit := o.now } else st

/-- Whether this iteration emits the one-time "taking longer than expected"
event: not yet warned, and at least the warn threshold elapsed since the
monitor started (manager.rs line 783). -/
def monitor_warn_emit (st : MonitorState) (o : MonitorObs) : Bool :=
  !(monitor_state_after_warmup st o).warned &&
    decide (o.now ≥ (HEALTH_MONITOR_WARN_SECS : Int) * 1000)

/-- The loop locals carried to the next iteration (manager.rs line 791 sets
`warned = true` when the warn event fired). -/
def monitor_state_after_warn (st : MonitorState) (o : MonitorObs) : MonitorState :=
  if monitor_warn_emit st o then { monitor_state_after_warmup st o with warned := true }
  else monitor_state_after_warmup st o

/-- One iteration of the `spawn_health_monitor` loop (manager.rs lines
718-795). -/
def monitor_step (isVllmModel : Bool) (st : MonitorState) (o : MonitorObs) :
    MonitorStepResult :=
  if o.cancelFlag then
    { events := [stoppedProgress], storeWrite := none, actions := [],
      runningCacheWrite := some false, next := none }
  else
    match o.containerRunning with
    | some true =>
      if obs_ready isVllmModel o then
        { events := [readyProgress], storeWrite := some ("ready", ""), actions := [],
          runningCacheWrite := some true, next := none }
      else
        { events := (if monitor_warmup_emit st o then [warmupProgress] else []) ++
            (if monitor_warn_emit st o then [warmupSlowProgress] else []),
          storeWrite := none, actions := [], runningCacheWrite := some true,
          next := some (monitor_state_after_warn st o) }
    | some false =>
      { events := [monitorFailureProgress
          ("SenseVoice 服务容器已退出" ++ "。最近日志: " ++ o.tail)],
        storeWrite := some ("error",
          "SenseVoice 服务容器已退出" ++ "。最近日志: " ++ o.tail),
        actions := RuntimeAction.killLogStream :: stop_all_runtime_containers,
        runningCacheWrite := some false, next := none }
    | none =>
      { events := [monitorFailureProgress
          ("SenseVoice 服务状态检查失败: " ++ o.inspectError ++ "。最近日志: " ++ o.tail)],
        storeWrite := some ("error",
          "SenseVoice 服务状态检查失败: " ++ o.inspectError ++ "。最近日志: " ++ o.tail),
        actions := RuntimeAction.killLogStream :: stop_all_runtime_containers,
        runningCacheWrite := some false, next := none }

/-- The whole monitor loop over a trace of iteration observations,
returning the events of each executed iteration (the run stops early when
an iteration returns). -/
def monitor_run (isVllmModel : Bool) :
    MonitorState → List MonitorObs → List (List ProgressPayload)
  | _, [] => []
  | st, o :: rest =>
    (monitor_step isVllmModel st o).events ::
      Option.elim (monitor_step isVllmModel st o).next []
        (fun st1 => monitor_run isVllmModel st1 rest)

/- ## Theorems -/

theorem string_append_ne_left (a b : String) (ha : a ≠ "") : a ++ b ≠ "" := by
  intro h
  apply ha
  have hd := String.ext_iff.mp h
  rw [String.data_append] at hd
  have hnil : a.data = [] := (List.append_eq_nil.mp hd).1
  exact String.ext (by rw [hnil])

theorem senseVoiceError_toMessage_ne_empty (err : SenseVoiceError) :
    err.toMessage ≠ "" := by
  cases err <;> exact string_append_ne_left _ _ (by decide)

theorem startup_failure_message_ne_empty (err : SenseVoiceError)
    (runtimeTail : Option String) :
    startup_failure_message err runtimeTail ≠ "" := by
  unfold startup_failure_message
  split
  · exact senseVoiceError_toMessage_ne_empty err
  · split
    · split
      · exact string_append_ne_left _ _
          (string_append_ne_left _ _ (senseVoiceError_toMessage_ne_empty err))
      · exact senseVoiceError_toMessage_ne_empty err
    · exact senseVoiceError_toMessage_ne_empty err

/-- C1: when a startup attempt fails because cancellation was signaled (the
cancel flag is set, or the error is the internal cancellation marker),
`handle_startup_failure` persists `download_state = "idle"` with an empty
`last_error`; for every non-cancelled failure it persists
`download_state = "error"` with a non-empty message; in both cases the
runtime containers are stopped and force-removed. -/
theorem handle_startup_failure_characterization (err : SenseVoiceError)
    (cancelFlag cancelled : Bool) (runtimeTail : Option String)
    (s : SenseVoiceSettings)
    (_hc : cancelled = (is_start_cancelled_error err || cancelFlag)) :
    (cancelled = true →
      (handle_startup_failure err cancelled runtimeTail s).settings.download_state = "idle" ∧
      (handle_startup_failure err cancelled runtimeTail s).settings.last_error = "") ∧
    (cancelled = false →
      (handle_startup_failure err cancelled runtimeTail s).settings.download_state = "error" ∧
      (handle_startup_failure err cancelled runtimeTail s).settings.last_error ≠ "") ∧
    RuntimeAction.stopContainer SERVICE_CONTAINER_NAME ∈
      (handle_startup_failure err cancelled runtimeTail s).actions ∧
    RuntimeAction.removeContainer SERVICE_CONTAINER_NAME ∈
      (handle_startup_failure err cancelled runtimeTail s).actions := by
  clear _hc
  cases cancelled with
  | true =>
    refine ⟨fun _ => ⟨rfl, rfl⟩, fun h => Bool.noConfusion h, ?_, ?_⟩ <;>
      · show _ ∈ RuntimeAction.killLogStream :: stop_all_runtime_containers
        decide
  | false =>
    refine ⟨fun h => Bool.noConfusion h, fun _ => ⟨rfl, ?_⟩, ?_, ?_⟩
    · show startup_failure_message err runtimeTail ≠ ""
      exact startup_failure_message_ne_empty err runtimeTail
    · show _ ∈ RuntimeAction.killLogStream :: stop_all_runtime_containers
      decide
    · show _ ∈ RuntimeAction.killLogStream :: stop_all_runtime_containers
      decide

/-- Witness for C1: the cancellation marker error persists idle/empty; a
configuration failure persists error with a non-empty message; both stop and
remove the service container. -/
theorem handle_startup_failure_witness :
    ((handle_startup_failure (SenseVoiceError.process START_CANCELLED_MARKER) true none
        default_sensevoice_settings).settings.download_state = "idle" ∧
      (handle_startup_failure (SenseVoiceError.process START_CANCELLED_MARKER) true none
        default_sensevoice_settings).settings.last_error = "") ∧
    ((handle_startup_failure (SenseVoiceError.config "配置缺失") false none
        default_sensevoice_settings).settings.download_state = "error" ∧
      (handle_startup_failure (SenseVoiceError.config "配置缺失") false none
        default_sensevoice_settings).settings.last_error ≠ "") ∧
    RuntimeAction.stopContainer SERVICE_CONTAINER_NAME ∈
      (handle_startup_failure (SenseVoiceError.config "配置缺失") false none
        default_sensevoice_settings).actions := by
  have h1 := handle_startup_failure_characterization
    (SenseVoiceError.process START_CANCELLED_MARKER) false true none
    default_sensevoice_settings (by decide)
  have h2 := handle_startup_failure_characterization
    (SenseVoiceError.config "配置缺失") false false none
    default_sensevoice_settings (by decide)
  exact ⟨h1.1 rfl, h2.2.1 rfl, h2.2.2.1⟩

/-- C2: `stop_service` is safe and idempotent: from every manager state it
kills any active prepare worker, sets the cancellation flag, clears the
cached running flag and `start_in_progress`, stops and removes the managed
runtime containers, and persists `download_state = "idle"` with empty
`last_error`; a second call leaves manager state and settings unchanged. -/
theorem stop_service_characterization (m : ManagerState) (s : SenseVoiceSettings) :
    (m.prepare_child = true →
      RuntimeAction.killPrepareWorker ∈ (stop_service m s).actions) ∧
    (stop_service m s).manager.start_cancel_flag = true ∧
    (stop_service m s).manager.prepare_child = false ∧
    (stop_service m s).manager.start_in_progress = false ∧
    (stop_service m s).manager.container_running_cache = false ∧
    (stop_service m s).manager.container_name = none ∧
    RuntimeAction.stopContainer SERVICE_CONTAINER_NAME ∈ (stop_service m s).actions ∧
    RuntimeAction.removeContainer SERVICE_CONTAINER_NAME ∈ (stop_service m s).actions ∧
    RuntimeAction.stopContainer VLLM_CONTAINER_NAME ∈ (stop_service m s).actions ∧
    RuntimeAction.removeContainer VLLM_CONTAINER_NAME ∈ (stop_service m s).actions ∧
    (stop_service m s).settings.download_state = "idle" ∧
    (stop_service m s).settings.last_error = "" ∧
    (stop_service (stop_service m s).manager (stop_service m s).settings).manager =
      (stop_service m s).manager ∧
    (stop_service (stop_service m s).manager (stop_service m s).settings).settings =
      (stop_service m s).settings := by
  have hmem : ∀ a ∈ stop_all_runtime_containers, a ∈ (stop_service m s).actions := by
    intro a ha
    show a ∈ ((if m.prepare_child then [RuntimeAction.killPrepareWorker] else []) ++
      (if m.log_child then [RuntimeAction.killLogStream] else [])) ++
        stop_all_runtime_containers
    exact List.mem_append_right _ ha
  refine ⟨fun hp => ?_, rfl, rfl, rfl, rfl, rfl, hmem _ (by decide), hmem _ (by decide),
    hmem _ (by decide), hmem _ (by decide), rfl, rfl, rfl, rfl⟩
  show RuntimeAction.killPrepareWorker ∈
    ((if m.prepare_child then [RuntimeAction.killPrepareWorker] else []) ++
      (if m.log_child then [RuntimeAction.killLogStream] else [])) ++
        stop_all_runtime_containers
  rw [hp]
  exact List.mem_append_left _ (List.mem_append_left _ (by decide))

/-- Witness for C2: a stop while a prepare worker, a log stream and a
running container are all live kills the worker and sets the flags. -/
theorem stop_service_witness :
    RuntimeAction.killPrepareWorker ∈
      (stop_service ⟨some "vtt-sensevoice-service", true, true, true, false, true⟩
        default_sensevoice_settings).actions ∧
    (stop_service ⟨some "vtt-sensevoice-service", true, true, true, false, true⟩
      default_sensevoice_settings).manager.start_cancel_flag = true := by
  have h := stop_service_characterization
    ⟨some "vtt-sensevoice-service", true, true, true, false, true⟩
    default_sensevoice_settings
  exact ⟨h.1 rfl, h.2.1⟩

/-- C3: with `installed = false` and no provisioning job, no cached running
instance and no start in flight, `start_service_async` returns a
Configuration error, writes nothing to the settings store, leaves the
manager untouched and spawns no startup thread, so the persisted
`download_state` is unchanged. -/
theorem start_service_async_not_installed (m : ManagerState) (s : SenseVoiceSettings)
    (hInstalled : s.installed = false) (hPrepare : m.prepare_child = false)
    (hRunning : m.container_running_cache = false)
    (hStarting : m.start_in_progress = false) :
    (start_service_async m s).outcome =
      Except.error (SenseVoiceError.config "SenseVoice 尚未安装，请先完成下载") ∧
    (start_service_async m s).settings = s ∧
    (start_service_async m s).manager = m ∧
    (start_service_async m s).spawnedStartupThread = false := by
  simp [start_service_async, hPrepare, hRunning, hStarting, hInstalled]

/-- Witness for C3: the default (not-installed, idle) settings with an idle
manager produce the Configuration error and leave `download_state = "idle"`. -/
theorem start_service_async_not_installed_witness :
    (start_service_async ⟨none, false, false, false, false, false⟩
        default_sensevoice_settings).outcome =
      Except.error (SenseVoiceError.config "SenseVoice 尚未安装，请先完成下载") ∧
    (start_service_async ⟨none, false, false, false, false, false⟩
        default_sensevoice_settings).settings.download_state = "idle" := by
  have h := start_service_async_not_installed ⟨none, false, false, false, false, false⟩
    default_sensevoice_settings rfl rfl rfl rfl
  exact ⟨h.1, by rw [h.2.1]; exact rfl⟩

/-- C4: for every health body, if it parses as JSON with a boolean `ready`
field, the service is ready exactly when that field is `true`; with no such
field, a vLLM-backed variant is ready exactly when the models-listing
response succeeds with a non-empty `data` array, and a non-vLLM variant is
never ready on that poll. -/
theorem is_service_ready_characterization (healthBody : Option Json)
    (modelsReply : Option HttpReply) :
    (∀ b, parse_health_ready_field healthBody = some b →
      ∀ isVllmModel, is_service_ready healthBody isVllmModel modelsReply = b) ∧
    (parse_health_ready_field healthBody = none →
      (is_service_ready healthBody true modelsReply = true ↔
        ∃ reply, modelsReply = some reply ∧ reply.ok = true ∧
          ∃ json models, reply.body = some json ∧
            (json.get "data").bind Json.asArray = some models ∧ models ≠ []) ∧
      is_service_ready healthBody false modelsReply = false) := by
  constructor
  · intro b hb isVllmModel
    simp [is_service_ready, hb]
  · intro hnone
    refine ⟨?_, by simp [is_service_ready, hnone]⟩
    rw [is_service_ready, hnone]
    cases modelsReply with
    | none => simp [check_vllm_models_ready]
    | some reply =>
      cases hok : reply.ok with
      | false => simp [check_vllm_models_ready, hok]
      | true =>
        cases hbody : reply.body with
        | none => simp [check_vllm_models_ready, hok, hbody,
            parse_vllm_models_response_ready]
        | some json =>
          cases harr : (json.get "data").bind Json.asArray with
          | none =>
            simp only [check_vllm_models_ready, hok, if_true,
              parse_vllm_models_response_ready, hbody, harr]
            constructor
            · intro h; cases h
            · rintro ⟨r, hr, -, j, models, hj, hja, -⟩
              cases hr; rw [hbody] at hj; cases hj
              rw [harr] at hja; cases hja
          | some models =>
            simp only [check_vllm_models_ready, hok, if_true,
              parse_vllm_models_response_ready, hbody, harr]
            constructor
            · intro h
              refine ⟨reply, rfl, hok, json, models, hbody, harr, ?_⟩
              intro hnil
              rw [hnil] at h
              simp at h
            · rintro ⟨r, hr, -, j, ms, hj, hja, hne⟩
              cases hr; rw [hbody] at hj; cases hj
              rw [harr] at hja; cases hja
              simpa [List.isEmpty_iff] using hne

/-- Witness for C4 at concrete inputs: a health body with `"ready": true` is
ready regardless of variant, and a body without the field is not ready for a
non-vLLM variant. -/
theorem is_service_ready_characterization_witness :
    parse_health_ready_field (some (Json.obj [("ready", Json.bool true)])) = some true ∧
    is_service_ready (some (Json.obj [("ready", Json.bool true)])) false none = true ∧
    parse_health_ready_field (some (Json.obj [("status", Json.str "ok")])) = none ∧
    is_service_ready (some (Json.obj [("status", Json.str "ok")])) false none = false := by
  refine ⟨rfl, ?_, rfl, ?_⟩
  · exact (is_service_ready_characterization
      (some (Json.obj [("ready", Json.bool true)])) none).1 true rfl false
  · exact ((is_service_ready_characterization
      (some (Json.obj [("status", Json.str "ok")])) none).2 rfl).2

/-- C9: `normalize_publish_host` maps every ASCII-case variant of `localhost`
to `127.0.0.1`, keeps every IPv4 literal unchanged, and rejects every other
hostname (IPv6 literals, DNS names, ...) with a Configuration error. -/
theorem normalize_publish_host_characterization (host : String) :
    (eq_ignore_ascii_case host "localhost" = true →
      normalize_publish_host host = Except.ok "127.0.0.1") ∧
    (eq_ignore_ascii_case host "localhost" = false → parses_as_ipv4 host = true →
      normalize_publish_host host = Except.ok host) ∧
    (eq_ignore_ascii_case host "localhost" = false → parses_as_ipv4 host = false →
      normalize_publish_host host = Except.error (SenseVoiceError.config
        "Docker 模式下服务地址主机仅支持 localhost 或 IPv4 地址")) := by
  refine ⟨fun h1 => ?_, fun h1 h2 => ?_, fun h1 h2 => ?_⟩
  · simp [normalize_publish_host, h1]
  · simp [normalize_publish_host, h1, h2]
  · simp [normalize_publish_host, h1, h2]

/-- Witness for C9: a cased `localhost`, an IPv4 literal, a DNS name and an
IPv6 literal, via `normalize_publish_host_characterization`. -/
theorem normalize_publish_host_witness :
    normalize_publish_host "LocalHost" = Except.ok "127.0.0.1" ∧
    normalize_publish_host "192.168.0.10" = Except.ok "192.168.0.10" ∧
    normalize_publish_host "example.com" = Except.error (SenseVoiceError.config
      "Docker 模式下服务地址主机仅支持 localhost 或 IPv4 地址") ∧
    normalize_publish_host "::1" = Except.error (SenseVoiceError.config
      "Docker 模式下服务地址主机仅支持 localhost 或 IPv4 地址") := by
  exact ⟨(normalize_publish_host_characterization "LocalHost").1 (by decide),
    (normalize_publish_host_characterization "192.168.0.10").2.1 (by decide) (by decide),
    (normalize_publish_host_characterization "example.com").2.2 (by decide) (by decide),
    (normalize_publish_host_characterization "::1").2.2 (by decide) (by decide)⟩

/-- C10: `resolve_vllm_model_id` ignores the configured id for voxtral and
returns the fixed Voxtral default; for qwen3-asr it returns the trimmed
input exactly when allowed, else the Qwen3-ASR-1.7B default; so the id
passed to the vLLM container always lies in the allowed set. -/
theorem resolve_vllm_model_id_characterization (model_id : String) :
    resolve_vllm_model_id LOCAL_MODEL_VOXTRAL model_id = DEFAULT_VOXTRAL_MODEL_ID ∧
    (rust_trim model_id ∈ QWEN3_ASR_ALLOWED_MODEL_IDS →
      resolve_vllm_model_id LOCAL_MODEL_QWEN3_ASR model_id = rust_trim model_id) ∧
    (rust_trim model_id ∉ QWEN3_ASR_ALLOWED_MODEL_IDS →
      resolve_vllm_model_id LOCAL_MODEL_QWEN3_ASR model_id = DEFAULT_QWEN3_ASR_MODEL_ID) ∧
    resolve_vllm_model_id LOCAL_MODEL_QWEN3_ASR model_id ∈ QWEN3_ASR_ALLOWED_MODEL_IDS ∧
    resolve_vllm_model_id LOCAL_MODEL_VOXTRAL model_id ∈
      DEFAULT_VOXTRAL_MODEL_ID :: QWEN3_ASR_ALLOWED_MODEL_IDS := by
  have hq : resolve_vllm_model_id LOCAL_MODEL_QWEN3_ASR model_id =
      normalize_qwen3_asr_model_id model_id := rfl
  have hcases : (rust_trim model_id ∈ QWEN3_ASR_ALLOWED_MODEL_IDS ∧
      normalize_qwen3_asr_model_id model_id = rust_trim model_id) ∨
      (rust_trim model_id ∉ QWEN3_ASR_ALLOWED_MODEL_IDS ∧
        normalize_qwen3_asr_model_id model_id = DEFAULT_QWEN3_ASR_MODEL_ID) := by
    cases hfind : QWEN3_ASR_ALLOWED_MODEL_IDS.find?
        (fun candidate => candidate == rust_trim model_id) with
    | none =>
      right
      refine ⟨fun hmem => ?_, by simp [normalize_qwen3_asr_model_id, hfind]⟩
      have := List.find?_eq_none.mp hfind _ hmem
      simp at this
    | some c =>
      left
      have hc : c = rust_trim model_id := by
        have := List.find?_some hfind
        exact eq_of_beq this
      have hmem : c ∈ QWEN3_ASR_ALLOWED_MODEL_IDS := List.mem_of_find?_eq_some hfind
      rw [hc] at hmem
      exact ⟨hmem, by simp [normalize_qwen3_asr_model_id, hfind, hc]⟩
  refine ⟨rfl, ?_, ?_, ?_, List.mem_cons_self _ _⟩
  · intro hmem
    rcases hcases with ⟨-, h⟩ | ⟨hnot, -⟩
    · rw [hq, h]
    · exact absurd hmem hnot
  · intro hnot
    rcases hcases with ⟨hmem, -⟩ | ⟨-, h⟩
    · exact absurd hmem hnot
    · rw [hq, h]
  · rcases hcases with ⟨hmem, h⟩ | ⟨-, h⟩
    · rw [hq, h]; exact hmem
    · rw [hq, h]; decide

/-- Witness for C10: an allowed id with surrounding whitespace is kept
(trimmed), an arbitrary id falls back to the default. -/
theorem resolve_vllm_model_id_witness :
    resolve_vllm_model_id LOCAL_MODEL_QWEN3_ASR " Qwen/Qwen3-ASR-0.6B " =
      "Qwen/Qwen3-ASR-0.6B" ∧
    resolve_vllm_model_id LOCAL_MODEL_QWEN3_ASR "some/other-model" =
      DEFAULT_QWEN3_ASR_MODEL_ID ∧
    resolve_vllm_model_id LOCAL_MODEL_VOXTRAL "some/other-model" =
      DEFAULT_VOXTRAL_MODEL_ID := by
  refine ⟨?_, ?_, (resolve_vllm_model_id_characterization "some/other-model").1⟩
  · have h := (resolve_vllm_model_id_characterization " Qwen/Qwen3-ASR-0.6B ").2.1
      (by decide)
    rw [h]; decide
  · exact (resolve_vllm_model_id_characterization "some/other-model").2.2.1 (by decide)

theorem monitor_state_after_warmup_warned (st : MonitorState) (o : MonitorObs) :
    (monitor_state_after_warmup st o).warned = st.warned := by
  unfold monitor_state_after_warmup
  split <;> rfl

theorem monitor_warn_emit_iff (st : MonitorState) (o : MonitorObs) :
    monitor_warn_emit st o = true ↔
      st.warned = false ∧ o.now ≥ (HEALTH_MONITOR_WARN_SECS : Int) * 1000 := by
  unfold monitor_warn_emit
  rw [Bool.and_eq_true, Bool.not_eq_true', monitor_state_after_warmup_warned]
  simp

theorem monitor_state_after_warn_warned (st : MonitorState) (o : MonitorObs) :
    (monitor_state_after_warn st o).warned = (st.warned || monitor_warn_emit st o) := by
  unfold monitor_state_after_warn
  cases h : monitor_warn_emit st o with
  | false => simp [monitor_state_after_warmup_warned]
  | true => simp [((monitor_warn_emit_iff st o).mp h).1]

theorem monitor_step_cases (isVllmModel : Bool) (st : MonitorState) (o : MonitorObs) :
    ((monitor_step isVllmModel st o).events =
        (if monitor_warmup_emit st o then [warmupProgress] else []) ++
          (if monitor_warn_emit st o then [warmupSlowProgress] else []) ∧
      (monitor_step isVllmModel st o).next = some (monitor_state_after_warn st o) ∧
      obs_ready isVllmModel o = false) ∨
    (warmupSlowProgress ∉ (monitor_step isVllmModel st o).events ∧
      (monitor_step isVllmModel st o).next = none) := by
  by_cases hcf : o.cancelFlag = true
  · right
    simp only [monitor_step, hcf, if_true]
    exact ⟨by decide, by trivial⟩
  · rw [Bool.not_eq_true] at hcf
    cases hcr : o.containerRunning with
    | none =>
      right
      simp only [monitor_step, hcf, Bool.false_eq_true, if_false, hcr]
      refine ⟨?_, by trivial⟩
      simp [monitorFailureProgress, warmupSlowProgress]
    | some b =>
      cases b with
      | false =>
        right
        simp only [monitor_step, hcf, Bool.false_eq_true, if_false, hcr]
        refine ⟨?_, by trivial⟩
        simp [monitorFailureProgress, warmupSlowProgress]
      | true =>
        cases hready : obs_ready isVllmModel o with
        | true =>
          right
          simp only [monitor_step, hcf, Bool.false_eq_true, if_false, hcr, hready, if_true]
          exact ⟨by decide, by trivial⟩
        | false =>
          left
          simp only [monitor_step, hcf, Bool.false_eq_true, if_false, hcr, hready]
          exact ⟨by trivial, by trivial, by trivial⟩

theorem warn_count_in_running_events (warmup warn : Bool) :
    ((if warmup then [warmupProgress] else []) ++
      (if warn then [warmupSlowProgress] else [])).count warmupSlowProgress =
    (if warn then 1 else 0) := by
  cases warmup <;> cases warn <;> decide

theorem monitor_run_warn_count (isVllmModel : Bool) :
    ∀ (obss : List MonitorObs) (st : MonitorState),
      ((monitor_run isVllmModel st obss).flatten).count warmupSlowProgress ≤
        (if st.warned then 0 else 1) := by
  intro obss
  induction obss with
  | nil =>
    intro st
    simp only [monitor_run, List.flatten_nil, List.count_nil]
    cases st.warned <;> simp
  | cons o rest ih =>
    intro st
    rcases monitor_step_cases isVllmModel st o with ⟨hev, hnext, -⟩ | ⟨hnot, hnext⟩
    · simp only [monitor_run, hnext, Option.elim, List.flatten_cons, List.count_append]
      rw [hev, warn_count_in_running_events]
      have h1 := ih (monitor_state_after_warn st o)
      rw [monitor_state_after_warn_warned] at h1
      cases hw : st.warned with
      | false =>
        cases hwe : monitor_warn_emit st o with
        | false =>
          rw [hw, hwe] at h1
          simp at h1 ⊢
          omega
        | true =>
          rw [hw, hwe] at h1
          simp at h1 ⊢
          omega
      | true =>
        have hwe : monitor_warn_emit st o = false := by
          cases h : monitor_warn_emit st o with
          | false => rfl
          | true =>
            have := ((monitor_warn_emit_iff st o).mp h).1
            rw [hw] at this
            exact Bool.noConfusion this
        rw [hw, hwe] at h1
        simp [hwe] at h1 ⊢
        omega
    · simp only [monitor_run, hnext, Option.elim, List.flatten_cons, List.flatten_nil,
        List.append_nil, List.count_append]
      rw [List.count_eq_zero.mpr hnot]
      cases st.warned <;> simp

theorem monitor_run_warn_iteration (isVllmModel : Bool) :
    ∀ (obss : List MonitorObs) (st : MonitorState) (i : Nat),
      warmupSlowProgress ∈ (monitor_run isVllmModel st obss).getD i [] →
      i < obss.length ∧
        (obss.getD i defaultMonitorObs).now ≥ (HEALTH_MONITOR_WARN_SECS : Int) * 1000 ∧
        obs_ready isVllmModel (obss.getD i defaultMonitorObs) = false := by
  intro obss
  induction obss with
  | nil =>
    intro st i h
    simp [monitor_run, List.getD] at h
  | cons o rest ih =>
    intro st i
    rcases monitor_step_cases isVllmModel st o with ⟨hev, hnext, hready⟩ | ⟨hnot, hnext⟩
    · cases i with
      | zero =>
        intro h
        simp only [monitor_run, List.getD_cons_zero] at h
        rw [hev] at h
        have hw : monitor_warn_emit st o = true := by
          rcases List.mem_append.mp h with h1 | h2
          · cases hwu : monitor_warmup_emit st o with
            | false => rw [hwu] at h1; cases h1
            | true =>
              rw [hwu] at h1
              simp only [if_true, List.mem_singleton] at h1
              exact absurd h1 (by decide)
          · cases hwe : monitor_warn_emit st o with
            | false => rw [hwe] at h2; cases h2
            | true => rfl
        refine ⟨Nat.succ_pos _, ?_, ?_⟩
        · simpa [List.getD_cons_zero] using ((monitor_warn_emit_iff st o).mp hw).2
        · simpa [List.getD_cons_zero] using hready
      | succ j =>
        intro h
        simp only [monitor_run, hnext, Option.elim, List.getD_cons_succ] at h
        obtain ⟨hlen, hnow, hready'⟩ := ih (monitor_state_after_warn st o) j h
        exact ⟨Nat.succ_lt_succ hlen, by simpa [List.getD_cons_succ] using hnow,
          by simpa [List.getD_cons_succ] using hready'⟩
    · cases i with
      | zero =>
        intro h
        simp only [monitor_run, List.getD_cons_zero] at h
        exact absurd h hnot
      | succ j =>
        intro h
        simp only [monitor_run, hnext, Option.elim, List.getD_cons_succ] at h
        simp [List.getD] at h

/-- C8: within one startup attempt, the health monitor emits the
"taking longer than expected" warning at most once over every trace of
iteration observations, and only on an iteration whose elapsed time is at
least the 120-second warn threshold and on which readiness was not
observed. -/
theorem health_monitor_warns_at_most_once (isVllmModel : Bool)
    (obss : List MonitorObs) :
    ((monitor_run isVllmModel initMonitorState obss).flatten).count warmupSlowProgress ≤ 1 ∧
    ∀ i, warmupSlowProgress ∈ (monitor_run isVllmModel initMonitorState obss).getD i [] →
      i < obss.length ∧
        (obss.getD i defaultMonitorObs).now ≥ (HEALTH_MONITOR_WARN_SECS : Int) * 1000 ∧
        obs_ready isVllmModel (obss.getD i defaultMonitorObs) = false := by
  refine ⟨?_, fun i h => monitor_run_warn_iteration isVllmModel obss initMonitorState i h⟩
  have h := monitor_run_warn_count isVllmModel obss initMonitorState
  simpa [initMonitorState] using h

/-- Witness for C8: a single iteration at 120 s elapsed, container running,
health reachable but not ready, emits the warming-up event and the warning;
the theorem applies with its membership hypothesis discharged concretely. -/
theorem health_monitor_warns_at_most_once_witness :
    ((monitor_run false initMonitorState
        [{ cancelFlag := false, containerRunning := some true,
           healthReply := some ⟨true, none⟩, modelsReply := none,
           inspectError := "", tail := "", now := 120000 }]).flatten).count
      warmupSlowProgress ≤ 1 ∧
    ({ cancelFlag := false, containerRunning := some true,
       healthReply := some ⟨true, none⟩, modelsReply := none,
       inspectError := "", tail := "", now := 120000 } : MonitorObs).now ≥
      (HEALTH_MONITOR_WARN_SECS : Int) * 1000 := by
  have h := health_monitor_warns_at_most_once false
    [{ cancelFlag := false, containerRunning := some true,
       healthReply := some ⟨true, none⟩, modelsReply := none,
       inspectError := "", tail := "", now := 120000 }]
  refine ⟨h.1, ?_⟩
  have h0 := h.2 0 (by
    show warmupSlowProgress ∈ [warmupProgress, warmupSlowProgress]
    decide)
  simpa [List.getD_cons_zero] using h0.2.1

/-- C7: every `WorkerEvent` value of every variant (Progress with or without
percent/detail, RuntimeLog, State with or without installed/enabled, Done,
Error), encoded to its JSON line value and decoded back, yields a value
equal to the original. -/
theorem workerEvent_roundtrip (e : WorkerEvent) :
    decodeWorkerEvent (encodeWorkerEvent e) = some e := by
  cases e with
  | progress stage message percent detail =>
    cases percent with
    | none =>
      cases detail with
      | none => rfl
      | some d => rfl
    | some p =>
      have h : decodeU8 (Json.num (p.val : Int)) = some p := by
        simp only [decodeU8]
        rw [dif_pos p.isLt]
      cases detail with
      | none =>
        simp only [encodeWorkerEvent, decodeWorkerEvent, List.cons_append,
          List.nil_append, getStrField, getOptField, Json.get, Json.asStr, List.lookup]
        simp [h]
      | some d =>
        simp only [encodeWorkerEvent, decodeWorkerEvent, List.cons_append,
          List.nil_append, getStrField, getOptField, Json.get, Json.asStr, List.lookup]
        simp [h]
  | runtimeLog stream line ts => rfl
  | state download_state last_error installed enabled =>
    cases installed <;> cases enabled <;> rfl
  | done message => rfl
  | error message => rfl

/-- C5 (code bug): on the startup path, both prebuilt-image variants
(voxtral, qwen3-asr) only inspect and, when absent, pull — never build.
On the provisioning-worker path a voxtral job is also pull-only; but the
worker's `normalize_local_model` has no `qwen3-asr` arm, so the `qwen3-asr`
job built by `prepare_async` (whose image tag is the prebuilt
`vllm/vllm-openai:nightly`) falls into the default-variant branch and, with
the image absent, a `docker build` of that tag is issued — contradicting
the pull-only claim. -/
theorem qwen3_asr_worker_build_divergence :
    (∀ expectedStamp previousStamp buildResult,
      startup_image_actions LOCAL_MODEL_VOXTRAL expectedStamp previousStamp
          true buildResult = [EngineAction.imageInspect VLLM_IMAGE_TAG] ∧
      startup_image_actions LOCAL_MODEL_VOXTRAL expectedStamp previousStamp
          false buildResult =
        [EngineAction.imageInspect VLLM_IMAGE_TAG, EngineAction.pull VLLM_IMAGE_TAG] ∧
      startup_image_actions LOCAL_MODEL_QWEN3_ASR expectedStamp previousStamp
          true buildResult = [EngineAction.imageInspect VLLM_IMAGE_TAG] ∧
      startup_image_actions LOCAL_MODEL_QWEN3_ASR expectedStamp previousStamp
          false buildResult =
        [EngineAction.imageInspect VLLM_IMAGE_TAG, EngineAction.pull VLLM_IMAGE_TAG]) ∧
    Worker.prepare_image_actions
        (prepare_job_for { default_sensevoice_settings with
          installed := true, local_model := "voxtral" } "rt" "md" "st") false false =
      [EngineAction.imageInspect Worker.VOXTRAL_IMAGE_TAG,
       EngineAction.pull Worker.VOXTRAL_IMAGE_TAG] ∧
    Worker.normalize_local_model "qwen3-asr" = LOCAL_MODEL_SENSEVOICE ∧
    (prepare_job_for { default_sensevoice_settings with
        installed := true, local_model := "qwen3-asr" } "rt" "md" "st").image_tag =
      VLLM_IMAGE_TAG ∧
    Worker.prepare_image_actions
        (prepare_job_for { default_sensevoice_settings with
          installed := true, local_model := "qwen3-asr" } "rt" "md" "st") false false =
      [EngineAction.imageInspect VLLM_IMAGE_TAG, EngineAction.build VLLM_IMAGE_TAG] := by
  refine ⟨fun expectedStamp previousStamp buildResult => ⟨rfl, rfl, rfl, rfl⟩,
    rfl, rfl, rfl, rfl⟩

/-- C6: for the default (sensevoice) variant, `ensure_runtime_image` skips
the docker build exactly when the image exists and the trimmed stamp file
equals the hash computed over the four bundled recipe files; if either
condition fails a build is run, and (when it succeeds) the new stamp is
written afterwards. -/
theorem ensure_runtime_image_characterization (hashHex : List String → String)
    (prepareScript serverScript requirementsTxt dockerfileTxt previousStamp : String)
    (hasImage : Bool) (buildResult : Except SenseVoiceError Unit) :
    (EngineAction.build SENSEVOICE_IMAGE_TAG ∉
        (ensure_runtime_image
          (runtime_stamp hashHex prepareScript serverScript requirementsTxt dockerfileTxt)
          previousStamp hasImage buildResult).actions ↔
      hasImage = true ∧ rust_trim previousStamp =
        runtime_stamp hashHex prepareScript serverScript requirementsTxt dockerfileTxt) ∧
    (hasImage = true →
      rust_trim previousStamp =
        runtime_stamp hashHex prepareScript serverScript requirementsTxt dockerfileTxt →
      (ensure_runtime_image
          (runtime_stamp hashHex prepareScript serverScript requirementsTxt dockerfileTxt)
          previousStamp hasImage buildResult).actions =
        [EngineAction.imageInspect SENSEVOICE_IMAGE_TAG] ∧
      (ensure_runtime_image
          (runtime_stamp hashHex prepareScript serverScript requirementsTxt dockerfileTxt)
          previousStamp hasImage buildResult).stampFile = previousStamp) ∧
    ((hasImage = false ∨ rust_trim previousStamp ≠
        runtime_stamp hashHex prepareScript serverScript requirementsTxt dockerfileTxt) →
      EngineAction.build SENSEVOICE_IMAGE_TAG ∈
        (ensure_runtime_image
          (runtime_stamp hashHex prepareScript serverScript requirementsTxt dockerfileTxt)
          previousStamp hasImage buildResult).actions ∧
      (buildResult = Except.ok () →
        (ensure_runtime_image
            (runtime_stamp hashHex prepareScript serverScript requirementsTxt dockerfileTxt)
            previousStamp hasImage buildResult).stampFile =
          runtime_stamp hashHex prepareScript serverScript requirementsTxt dockerfileTxt ∧
        (ensure_runtime_image
            (runtime_stamp hashHex prepareScript serverScript requirementsTxt dockerfileTxt)
            previousStamp hasImage buildResult).outcome = Except.ok ())) := by
  cases hasImage with
  | false =>
    cases buildResult with
    | ok u =>
      cases u
      refine ⟨?_, fun hi => Bool.noConfusion hi, fun _ => ⟨?_, fun _ => ⟨rfl, rfl⟩⟩⟩
      · simp [ensure_runtime_image]
      · show EngineAction.build SENSEVOICE_IMAGE_TAG ∈
          [EngineAction.imageInspect SENSEVOICE_IMAGE_TAG,
           EngineAction.build SENSEVOICE_IMAGE_TAG]
        decide
    | error e =>
      refine ⟨?_, fun hi => Bool.noConfusion hi, fun _ => ⟨?_, fun hok => ?_⟩⟩
      · simp [ensure_runtime_image]
      · show EngineAction.build SENSEVOICE_IMAGE_TAG ∈
          [EngineAction.imageInspect SENSEVOICE_IMAGE_TAG,
           EngineAction.build SENSEVOICE_IMAGE_TAG]
        decide
      · cases hok
  | true =>
    cases hbeq : rust_trim previousStamp ==
        runtime_stamp hashHex prepareScript serverScript requirementsTxt dockerfileTxt with
    | true =>
      have he := beq_iff_eq.mp hbeq
      refine ⟨?_, fun _ _ => ⟨?_, ?_⟩, fun habs => ?_⟩
      · simp only [ensure_runtime_image, hbeq, Bool.and_true, if_true]
        simp [he]
      · simp only [ensure_runtime_image, hbeq, Bool.and_true, if_true]
      · simp only [ensure_runtime_image, hbeq, Bool.and_true, if_true]
      · rcases habs with h | h
        · exact Bool.noConfusion h
        · exact absurd he h
    | false =>
      have hne : rust_trim previousStamp ≠
          runtime_stamp hashHex prepareScript serverScript requirementsTxt dockerfileTxt :=
        fun he => Bool.noConfusion (hbeq ▸ beq_iff_eq.mpr he)
      cases buildResult with
      | ok u =>
        cases u
        refine ⟨?_, fun _ he => absurd he hne, fun _ => ⟨?_, fun _ => ⟨?_, ?_⟩⟩⟩
        · simp only [ensure_runtime_image, hbeq, Bool.and_false, if_false]
          simp [hne]
        · simp only [ensure_runtime_image, hbeq, Bool.and_false, if_false]
          show EngineAction.build SENSEVOICE_IMAGE_TAG ∈
            [EngineAction.imageInspect SENSEVOICE_IMAGE_TAG,
             EngineAction.build SENSEVOICE_IMAGE_TAG]
          decide
        · simp [ensure_runtime_image, hbeq]
        · simp [ensure_runtime_image, hbeq]
      | error e =>
        refine ⟨?_, fun _ he => absurd he hne, fun _ => ⟨?_, fun hok => ?_⟩⟩
        · simp only [ensure_runtime_image, hbeq, Bool.and_false, if_false]
          simp [hne]
        · simp only [ensure_runtime_image, hbeq, Bool.and_false, if_false]
          show EngineAction.build SENSEVOICE_IMAGE_TAG ∈
            [EngineAction.imageInspect SENSEVOICE_IMAGE_TAG,
             EngineAction.build SENSEVOICE_IMAGE_TAG]
          decide
        · cases hok

/-- Witness for C6: with a concrete hash function, a matching stamp and
present image skip the build; an absent image triggers the build and
rewrites the stamp. -/
theorem ensure_runtime_image_witness :
    (ensure_runtime_image
        (runtime_stamp (fun _ => "deadbeef") "p" "s" "r" "d") "deadbeef"
        true (Except.ok ())).actions =
      [EngineAction.imageInspect SENSEVOICE_IMAGE_TAG] ∧
    EngineAction.build SENSEVOICE_IMAGE_TAG ∈
      (ensure_runtime_image
        (runtime_stamp (fun _ => "deadbeef") "p" "s" "r" "d") "deadbeef"
        false (Except.ok ())).actions ∧
    (ensure_runtime_image
        (runtime_stamp (fun _ => "deadbeef") "p" "s" "r" "d") "deadbeef"
        false (Except.ok ())).stampFile = "deadbeef" := by
  have h1 := ensure_runtime_image_characterization (fun _ => "deadbeef")
    "p" "s" "r" "d" "deadbeef" true (Except.ok ())
  have h2 := ensure_runtime_image_characterization (fun _ => "deadbeef")
    "p" "s" "r" "d" "deadbeef" false (Except.ok ())
  refine ⟨(h1.2.1 rfl (by decide)).1, (h2.2.2 (Or.inl rfl)).1, ?_⟩
  have := (h2.2.2 (Or.inl rfl)).2 rfl
  rw [this.1]; exact rfl

end VTT
